import Mathlib

/-!
Formal model of the SWE-bench docker harness
(`swebench/harness/docker_context_manager.py` and
`swebench/harness/docker_run_evaluation.py`): the task-environment
lifecycle, patch application, test execution and the evaluation driver
sequence.  Commands issued to the environment are modelled symbolically;
the outcome of each command is supplied by an oracle function, so every
control path of the Python code becomes a case of a total Lean function.
-/

/-- A command handed to an executor: either a pre-tokenized argument
vector or a single shell string (the two modes of `subprocess.run`). -/
inductive Cmd where
  | argv (args : List String)
  | shellStr (s : String)
deriving DecidableEq

/-- The completed-process record returned by an executor
(`subprocess.CompletedProcess`): exit code and captured output. -/
structure CmdOutput where
  returncode : Int
  stdout : String
  stderr : String
deriving DecidableEq

/-- The raw outcome of spawning one subprocess, before the executor's
raise/return policy is applied: the process completed (with any exit
code), the wait timed out, or the process could not be launched at all. -/
inductive ExecOutcome where
  | ok (out : CmdOutput)
  | timedOut
  | err (cause : String)
deriving DecidableEq

/-- The typed failures an executor call can signal: a timeout
(`subprocess.TimeoutExpired`), a non-zero exit under check mode
(`subprocess.CalledProcessError`), or a launch failure (e.g. `OSError`). -/
inductive ExecError where
  | timeout
  | commandFailed (code : Int)
  | launchFailed (cause : String)
deriving DecidableEq

/-- Rendering of an executor failure, standing in for Python's `str(e)`
when an exception is interpolated into a log line. -/
def execErrorMsg : ExecError → String
  | ExecError.timeout => "TimeoutExpired"
  | ExecError.commandFailed c => "CalledProcessError: " ++ toString c
  | ExecError.launchFailed c => c

/-- Modelled from the spec: `ExecWrapper.__call__` of
`swebench/harness/context_manager.py` (the repository file is not under
src/).  Per spec section 4.1 and the design note in section 9, one call
either returns the completed process or signals a typed failure: a
timeout and a launch failure always signal; a non-zero exit signals
`CommandFailed` only when the call runs in check mode with
`raise_on_error` requested (every call site in src/ passes
`check=False`, the spec's "do not raise on non-zero" / "non-raising"
mode, so for those calls a non-zero exit is returned to the caller). -/
def execRun (outcome : ExecOutcome) (raiseError : Bool) (check : Bool) :
    Except ExecError CmdOutput :=
  match outcome with
  | ExecOutcome.timedOut => Except.error ExecError.timeout
  | ExecOutcome.err c => Except.error (ExecError.launchFailed c)
  | ExecOutcome.ok out =>
      if raiseError && check && out.returncode != 0 then
        Except.error (ExecError.commandFailed out.returncode)
      else
        Except.ok out

/-- One call recorded against the remote executor: the command as handed
to `docker_exec` plus the effective raise/check flags of that call. -/
structure ExecCall where
  cmd : Cmd
  raiseError : Bool
  check : Bool
deriving DecidableEq

/-- `DockerExecWrapper.__call__`, command-rewriting step: an argument
vector is prefixed with `["docker", "exec", container_name]`; a shell
string has `"docker exec <container_name> "` prepended. -/
def dockerRewrite (containerName : String) : Cmd → Cmd
  | Cmd.argv args => Cmd.argv (["docker", "exec", containerName] ++ args)
  | Cmd.shellStr s => Cmd.shellStr ("docker exec " ++ containerName ++ " " ++ s)

/-- `DockerExecWrapper.__call__` as a whole: rewrites the command and
forwards `raise_error` and all remaining keyword options unchanged to the
base executor (`super().__call__(cmd, raise_error, **kwargs)`); the
options bag is kept abstract as a key-value list. -/
def dockerCall (containerName : String) (cmd : Cmd) (raiseError : Bool)
    (kwargs : List (String × String)) :
    Cmd × Bool × List (String × String) :=
  (dockerRewrite containerName cmd, raiseError, kwargs)

/-- One line of the per-instance audit log file.  Freeform diagnostic
lines (`LogWrapper.write` and plain `f.write` text) are `text`;
designated marker lines are their own constructors, carrying the suffix
the code appends after the marker constant. -/
inductive LogEntry where
  | text (s : String)
  | applyPatchPass (suffix : String)
  | applyPatchFail (suffix : String)
  | testScript (cmd : String)
  | testsPassed
  | testsFailed
  | testsTimeout (timeoutSeconds : Option Int)
  | testsError (cause : String)
deriving DecidableEq

/-- Whether a log line is one of the two patch-application markers. -/
def isApplyMarker : LogEntry → Bool
  | LogEntry.applyPatchPass _ => true
  | LogEntry.applyPatchFail _ => true
  | _ => false

/-- Number of `APPLY_PATCH_PASS` / `APPLY_PATCH_FAIL` marker lines in a
log fragment. -/
def countApplyMarkers (log : List LogEntry) : Nat :=
  (log.filter isApplyMarker).length

/-- Whether a log line is one of the test-status markers
(`TESTS_PASSED`, `TESTS_FAILED`, `TESTS_TIMEOUT`, `TESTS_ERROR`). -/
def isStatusMarker : LogEntry → Bool
  | LogEntry.testsPassed => true
  | LogEntry.testsFailed => true
  | LogEntry.testsTimeout _ => true
  | LogEntry.testsError _ => true
  | _ => false

/-- The subsequence of test-status marker lines of a log fragment. -/
def statusMarkers (log : List LogEntry) : List LogEntry :=
  log.filter isStatusMarker

/-- Stand-in for Python's `json.dumps` applied to the patch text when the
temporary-file write command is built (an external stdlib collaborator;
no property below depends on the exact quoting). -/
def jsonDumps (s : String) : String := "\x22" ++ s ++ "\x22"

/-- The deterministic temporary patch-file name
`temp_<instance_id>_<patch_type>.patch`. -/
def patchPath (instanceId patchType : String) : String :=
  "temp_" ++ instanceId ++ "_" ++ patchType ++ ".patch"

/-- The shell-string command that writes the patch text into the
temporary file inside the environment
(`sh -c 'echo <json.dumps(patch)> > <patch_path>'`). -/
def writePatchCmd (instanceId : String) (patch : String) (patchType : String) : Cmd :=
  Cmd.shellStr ("sh -c \x27echo " ++ jsonDumps patch ++ " > "
    ++ patchPath instanceId patchType ++ "\x27")

/-- Python's `str.split(" ")`: split on every single space character
(consecutive spaces yield empty fields), written by structural recursion
so that it evaluates in the kernel. -/
def splitSpaceAux : List Char → String → List String
  | [], acc => [acc]
  | c :: cs, acc =>
      if c = ' ' then acc :: splitSpaceAux cs ""
      else splitSpaceAux cs (acc.push c)

/-- Tokenization of a command string as done by `.split(" ")` in the
source. -/
def pySplitSpace (s : String) : List String :=
  splitSpaceAux s.data ""

/-- The apply/revert command `git apply -v [-R] <patch_path>`, tokenized
with `.split(" ")` as in the source. -/
def applyPatchCmd (instanceId patchType : String) (revert : Bool) : Cmd :=
  Cmd.argv (pySplitSpace (if revert then "git apply -v -R " ++ patchPath instanceId patchType
             else "git apply -v " ++ patchPath instanceId patchType))

/-- The cleanup command `rm <patch_path>`, tokenized with `.split(" ")`. -/
def removePatchCmd (instanceId patchType : String) : Cmd :=
  Cmd.argv (pySplitSpace ("rm " ++ patchPath instanceId patchType))

/-- What one `apply_patch` call did: its boolean return value, the log
lines it appended, and the commands it issued to `docker_exec`, in
order. -/
structure ApplyTrace where
  ret : Bool
  log : List LogEntry
  cmds : List ExecCall
deriving DecidableEq

/-- `DockerTaskEnvContextManager.apply_patch`.  The oracle gives the raw
outcome of each command issued to the environment.  A `None` patch is
logged and refused with no command issued.  Otherwise the patch text is
written to the temporary file (`docker_exec` with its constructor-level
`check=False`, so only a timeout or launch failure raises; such an
exception is caught, logged, and turns into a `false` return with no
marker).  The apply/revert and the cleanup `rm` run in non-raising
non-check mode; an exception there (timeout/launch failure) has no
handler in the source and propagates, modelled by `Except.error`. -/
def apply_patch (oracle : Cmd → ExecOutcome) (instanceId : String)
    (patch : Option String) (patchType : String) (revert : Bool) :
    Except ExecError ApplyTrace :=
  match patch with
  | none =>
      Except.ok
        { ret := false
        , log := [LogEntry.text ("Patch is None (" ++ patchType ++ ")"),
                  LogEntry.applyPatchFail "; Prediction patch is None"]
        , cmds := [] }
  | some p =>
      let wc := writePatchCmd instanceId p patchType
      let wcall : ExecCall := { cmd := wc, raiseError := true, check := false }
      match execRun (oracle wc) true false with
      | Except.error e =>
          Except.ok
            { ret := false
            , log := [LogEntry.text ("Failed to write patch: " ++ execErrorMsg e)]
            , cmds := [wcall] }
      | Except.ok _ =>
          let ac := applyPatchCmd instanceId patchType revert
          let acall : ExecCall := { cmd := ac, raiseError := false, check := false }
          match execRun (oracle ac) false false with
          | Except.error e => Except.error e
          | Except.ok outPatch =>
              let rc := removePatchCmd instanceId patchType
              let rcall : ExecCall := { cmd := rc, raiseError := false, check := false }
              match execRun (oracle rc) false false with
              | Except.error e => Except.error e
              | Except.ok _ =>
                  let logCmd := if revert then "Revert" else "Apply"
                  if outPatch.returncode != 0 then
                    Except.ok
                      { ret := false
                      , log := [LogEntry.text (logCmd ++ " patch failed ("
                                  ++ patchType ++ ")"),
                                LogEntry.applyPatchFail ("; (" ++ patchType
                                  ++ ") Output:"),
                                LogEntry.text outPatch.stdout]
                               ++ (if outPatch.stderr != "" then
                                     [LogEntry.text outPatch.stderr] else [])
                      , cmds := [wcall, acall, rcall] }
                  else
                    Except.ok
                      { ret := true
                      , log := [LogEntry.text (logCmd ++ " patch successful ("
                                  ++ patchType ++ ")"),
                                LogEntry.applyPatchPass (" (" ++ patchType ++ ")")]
                      , cmds := [wcall, acall, rcall] }

/-- The relevant slice of one install specification
(`MAP_VERSION_TO_INSTALL[repo][version]`): the optional `env_vars_test`
mapping injected around the test run. -/
structure InstallSpec where
  env_vars_test : Option (List (String × String))
deriving DecidableEq

/-- The fields of a task instance that `run_tests_task` reads. -/
structure TestInstance where
  test_cmd : String
  repo : String
  version : String
deriving DecidableEq

/-- Python `dict` assignment of one key (update in place, insertion order
preserved; a fresh key is appended). -/
def envSet (env : List (String × String)) (k v : String) :
    List (String × String) :=
  if env.any (fun p => p.1 == k) then
    env.map (fun p => if p.1 == k then (k, v) else p)
  else
    env ++ [(k, v)]

/-- Python `dict.update`: fold `envSet` over the new bindings. -/
def envUpdate (env : List (String × String)) (kvs : List (String × String)) :
    List (String × String) :=
  kvs.foldl (fun acc kv => envSet acc kv.1 kv.2) env

/-- Python `del env[key] for key in keys`: remove the listed keys. -/
def envDelete (env : List (String × String)) (keys : List String) :
    List (String × String) :=
  env.filter (fun p => !(keys.contains p.1))

/-- What one `run_tests_task` call did: boolean return, appended log
lines, the executor's environment-override map after the call, the map in
force when the test command was executed (`none` when it never ran). -/
structure RunTestsResult where
  ret : Bool
  log : List LogEntry
  env : List (String × String)
  execEnv : Option (List (String × String))
deriving DecidableEq

/-- `DockerTaskEnvContextManager.run_tests_task`.  `lookup` is
`MAP_VERSION_TO_INSTALL` (an external constants table) as a two-stage
map; a missing repository or version corresponds to the `KeyError` the
subscripts raise, handled by the catch-all `except` clause.  `outcome` is
the raw outcome of the single test command, run as a shell string with
the configured timeout and `check=False` (non-raising on non-zero exit);
`env0` is the executor's environment-override map on entry.  The
spec-modelled executor (see `execRun`) keeps this map as explicit
state. -/
def run_tests_task (lookup : String → Option (String → Option InstallSpec))
    (outcome : ExecOutcome) (inst : TestInstance) (timeout : Option Int)
    (env0 : List (String × String)) : RunTestsResult :=
  let log0 := [LogEntry.testScript inst.test_cmd]
  match lookup inst.repo with
  | none =>
      { ret := false
      , log := log0 ++ [LogEntry.text "Test script run failed",
                        LogEntry.testsError ("KeyError: " ++ inst.repo)]
      , env := env0
      , execEnv := none }
  | some versions =>
      match versions inst.version with
      | none =>
          { ret := false
          , log := log0 ++ [LogEntry.text "Test script run failed",
                            LogEntry.testsError ("KeyError: " ++ inst.version)]
          , env := env0
          , execEnv := none }
      | some specifications =>
          let env1 :=
            match specifications.env_vars_test with
            | some vars => envUpdate env0 vars
            | none => env0
          match execRun outcome true false with
          | Except.error ExecError.timeout =>
              { ret := false
              , log := log0 ++ [LogEntry.text "Test script run timed out",
                                LogEntry.testsTimeout timeout]
              , env := env1
              , execEnv := some env1 }
          | Except.error e =>
              { ret := false
              , log := log0 ++ [LogEntry.text "Test script run failed",
                                LogEntry.testsError (execErrorMsg e)]
              , env := env1
              , execEnv := some env1 }
          | Except.ok outTest =>
              let env2 :=
                match specifications.env_vars_test with
                | some vars => envDelete env1 (vars.map Prod.fst)
                | none => env1
              let marker :=
                if outTest.returncode != 0 then LogEntry.testsFailed
                else LogEntry.testsPassed
              { ret := true
              , log := log0 ++ [marker, LogEntry.text "Test script run successful"]
              , env := env2
              , execEnv := some env1 }

/-- The patch kind labels (`PatchType` values from the constants module)
used by the evaluation driver. -/
inductive PatchKind where
  | pred_try
  | pred_minimal_try
  | pred
  | pred_minimal
  | test
  | gold
deriving DecidableEq

/-- One observable step of the evaluation driver: a patch application
(with the patch text handed over, the kind label, the revert flag and the
boolean it returned), a test run, or the context manager's teardown. -/
inductive DriverOp where
  | applyStep (patch : Option String) (kind : PatchKind) (revert : Bool) (ok : Bool)
  | runTests (ok : Bool)
  | teardown
deriving DecidableEq

/-- The collaborators of the evaluation driver `main`: the attached
prediction text, the task's test patch, the boolean outcome of each
`apply_patch` call (as a function of patch text, kind and revert flag),
the outcome of `run_tests_task`, and the external
`extract_minimal_patch` text transform. -/
structure DriverEnv where
  pred : Option String
  test_patch : String
  applyOk : Option String → PatchKind → Bool → Bool
  testsOk : Bool
  minimal : String → String

/-- Steps 3–5 of the driver body (`docker_run_evaluation.main`, from the
unchecked revert call onward): revert the trial kind, compute the final
kind label, re-apply the prediction, apply the test patch, run tests,
returning early on a failed apply. -/
def driverTail (e : DriverEnv) (pred : Option String) (kind : PatchKind) :
    List DriverOp :=
  let rRev := e.applyOk pred kind true
  let opRev := DriverOp.applyStep pred kind true rRev
  let kindF := if kind == PatchKind.pred_minimal_try then PatchKind.pred_minimal
               else PatchKind.pred
  let r3 := e.applyOk pred kindF false
  let op3 := DriverOp.applyStep pred kindF false r3
  if !r3 then [opRev, op3]
  else
    let r4 := e.applyOk (some e.test_patch) PatchKind.test false
    let op4 := DriverOp.applyStep (some e.test_patch) PatchKind.test false r4
    if !r4 then [opRev, op3, op4]
    else [opRev, op3, op4, DriverOp.runTests e.testsOk]

/-- The boolean returned by the first trial application
(`tcm.apply_patch(prediction, patch_type=PATCH_PRED_TRY)`). -/
def firstTrialOk (e : DriverEnv) : Bool :=
  e.applyOk e.pred PatchKind.pred_try false

/-- The guard of the minimal-patch fallback: the first trial failed and
the prediction text is non-null and non-empty. -/
def fallbackGuard (e : DriverEnv) : Bool :=
  !firstTrialOk e && !e.pred.isNone && e.pred != some ""

/-- The minimal-patch variant substituted by the fallback
(`extract_minimal_patch(task_instance[KEY_PREDICTION])`). -/
def minimalPred (e : DriverEnv) : Option String :=
  some (e.minimal (e.pred.getD ""))

/-- The body of the evaluation driver's `with` block
(`docker_run_evaluation.main`, steps 1–5): first trial apply; on the
fallback guard, substitute the minimal patch and retry as a trial,
abandoning the task if that also fails; otherwise continue with
`driverTail`. -/
def driverBody (e : DriverEnv) : List DriverOp :=
  let r1 := firstTrialOk e
  let op1 := DriverOp.applyStep e.pred PatchKind.pred_try false r1
  if fallbackGuard e then
    let pred1 := minimalPred e
    let r2 := e.applyOk pred1 PatchKind.pred_minimal_try false
    let op2 := DriverOp.applyStep pred1 PatchKind.pred_minimal_try false r2
    if !r2 then [op1, op2]
    else op1 :: op2 :: driverTail e pred1 PatchKind.pred_minimal_try
  else
    op1 :: driverTail e e.pred PatchKind.pred_try

/-- The evaluation driver `main` over one task: the `with` block body
followed by the context manager's scope-exit teardown, which runs exactly
once whether the body ran to completion or returned early. -/
def driverMain (e : DriverEnv) : List DriverOp :=
  driverBody e ++ [DriverOp.teardown]

/-- Number of ops in a driver trace satisfying a predicate. -/
def countOps (p : DriverOp → Bool) (ops : List DriverOp) : Nat :=
  (ops.filter p).length

/-- Recognizes a non-revert application of the minimal-trial kind (an
attempt of the minimal-patch fallback; the later revert of a successful
minimal trial carries the same kind but is not an attempt). -/
def isMinimalTrial : DriverOp → Bool
  | DriverOp.applyStep _ k r _ => k == PatchKind.pred_minimal_try && !r
  | _ => false

/-- Recognizes an application of the test-patch kind. -/
def isTestApply : DriverOp → Bool
  | DriverOp.applyStep _ PatchKind.test _ _ => true
  | _ => false

/-- Recognizes an application of a given kind. -/
def isApplyOfKind (k : PatchKind) : DriverOp → Bool
  | DriverOp.applyStep _ k2 _ _ => k2 == k
  | _ => false

/-- Recognizes a non-revert application of a given kind. -/
def isApplyKindNonRevert (k : PatchKind) : DriverOp → Bool
  | DriverOp.applyStep _ k2 r _ => k2 == k && !r
  | _ => false

/-- Recognizes a test run. -/
def isRunTests : DriverOp → Bool
  | DriverOp.runTests _ => true
  | _ => false

/-- Recognizes the scope-exit teardown. -/
def isTeardown : DriverOp → Bool
  | DriverOp.teardown => true
  | _ => false

/-- One command issued by the context manager on the host executor
(`self.exec`), with the `raise_error` flag of the call. -/
structure HostCall where
  cmd : Cmd
  raiseError : Bool
deriving DecidableEq

/-- `DockerTaskEnvContextManager._reset_docker`: force-kill then
force-remove the named environment, both issued with
`raise_error=False`. -/
def reset_docker (testbedName : String) : List HostCall :=
  [ { cmd := Cmd.argv (pySplitSpace ("docker kill " ++ testbedName))
    , raiseError := false },
    { cmd := Cmd.argv (pySplitSpace ("docker rm " ++ testbedName))
    , raiseError := false } ]

/-- `DockerTaskEnvContextManager.__exit__`: ignores the exception
information (`excInfo`, `none` for a normal exit and `some` a description
when the body raised) and unconditionally runs `_reset_docker`. -/
def ctxExit (testbedName : String) (excInfo : Option String) : List HostCall :=
  match excInfo with
  | _ => reset_docker testbedName

/-- The host commands issued by `DockerTaskEnvContextManager.__enter__`
up to and including the environment start: the forced teardown of any
stale environment under the same name, then the
`docker run -d -t --name <name> <name>` start (issued with the host
executor's default raising mode). -/
def ctxEnterCmds (testbedName : String) : List HostCall :=
  reset_docker testbedName
    ++ [ { cmd := Cmd.argv (pySplitSpace ("docker run -d -t --name "
             ++ testbedName ++ " " ++ testbedName))
         , raiseError := true } ]

/-- Projection: the number of apply markers written by an `apply_patch`
call (zero when the call propagated an exception). -/
def applyMarkersOfResult : Except ExecError ApplyTrace → Nat
  | Except.ok tr => countApplyMarkers tr.log
  | Except.error _ => 0

/-- An environment in which every command fails to launch, so the
temporary patch-file write inside `apply_patch` raises. -/
def writeFailOracle : Cmd → ExecOutcome :=
  fun _ => ExecOutcome.err "docker: container not running"

/-- Install-spec lookup for a concrete instance whose specification
carries one `env_vars_test` override. -/
def oneVarLookup : String → Option (String → Option InstallSpec) :=
  fun _ => some (fun _ => some { env_vars_test := some [("K", "V")] })

/-- A concrete task instance for the test-run counterexample. -/
def cexInstance : TestInstance :=
  { test_cmd := "pytest", repo := "r", version := "1.0" }

/-- A driver environment where every patch application succeeds but every
revert fails. -/
def revertFailEnv : DriverEnv :=
  { pred := some "P"
  , test_patch := "T"
  , applyOk := fun _ _ revert => !revert
  , testsOk := true
  , minimal := fun s => s }

/-- C5: apply_patch with a null patch text returns false, writes the
"patch is null" line (followed by the fail marker) to the audit log, and
issues no command to the environment. -/
theorem apply_patch_null_patch (oracle : Cmd → ExecOutcome)
    (instanceId patchType : String) (revert : Bool) :
    apply_patch oracle instanceId none patchType revert
      = Except.ok
          { ret := false
          , log := [LogEntry.text ("Patch is None (" ++ patchType ++ ")"),
                    LogEntry.applyPatchFail "; Prediction patch is None"]
          , cmds := [] } :=
  rfl

/-- C8: every command passed to the remote executor is rewritten — an
argument vector by prefixing `["docker", "exec", <id>]`, a shell string
by prepending `"docker exec <id> "` — and `raise_error` together with all
remaining options is forwarded unchanged to the base executor. -/
theorem dockerCall_rewrites_and_forwards (containerName : String)
    (args : List String) (s : String) (raiseError : Bool)
    (kwargs : List (String × String)) :
    dockerCall containerName (Cmd.argv args) raiseError kwargs
      = (Cmd.argv (["docker", "exec", containerName] ++ args), raiseError, kwargs)
    ∧ dockerCall containerName (Cmd.shellStr s) raiseError kwargs
      = (Cmd.shellStr ("docker exec " ++ containerName ++ " " ++ s),
         raiseError, kwargs) :=
  ⟨rfl, rfl⟩

/-- C9: on scope exit — whatever the exception state — the environment is
force-killed and force-removed with both commands in non-raising mode, so
teardown failures never propagate; scope entry issues the same two forced
non-raising removal commands before the environment start. -/
theorem ctx_teardown_forced_nonraising (testbedName : String)
    (excInfo : Option String) :
    ctxExit testbedName excInfo
      = [ { cmd := Cmd.argv (pySplitSpace ("docker kill " ++ testbedName))
          , raiseError := false },
          { cmd := Cmd.argv (pySplitSpace ("docker rm " ++ testbedName))
          , raiseError := false } ]
    ∧ ctxEnterCmds testbedName
      = ctxExit testbedName excInfo
          ++ [ { cmd := Cmd.argv (pySplitSpace ("docker run -d -t --name "
                   ++ testbedName ++ " " ++ testbedName))
               , raiseError := true } ] :=
  ⟨rfl, rfl⟩

/-- C2 counterexample: a completed `apply_patch` call (non-null patch,
write of the temporary patch file raises) that writes no
`APPLY_PATCH_PASS`/`APPLY_PATCH_FAIL` marker at all, refuting "exactly
one marker per call". -/
theorem apply_patch_marker_not_always_written :
    applyMarkersOfResult
        (apply_patch writeFailOracle "inst-1" (some "diff") "pred_try" false) = 0
    ∧ apply_patch writeFailOracle "inst-1" (some "diff") "pred_try" false
        = Except.ok
            { ret := false
            , log := [LogEntry.text
                "Failed to write patch: docker: container not running"]
            , cmds := [{ cmd := writePatchCmd "inst-1" "diff" "pred_try"
                       , raiseError := true, check := false }] } :=
  ⟨rfl, rfl⟩

/-- C3 counterexample: with an install spec carrying `env_vars_test` and
a test run that times out, the override is still present in the
executor's environment-override map after the call (starting from an
empty map it would be empty again had the override been removed),
refuting removal "in every outcome". -/
theorem run_tests_env_overrides_leak_on_timeout :
    (run_tests_task oneVarLookup ExecOutcome.timedOut cexInstance
        (some 900) []).env = [("K", "V")]
    ∧ (run_tests_task oneVarLookup ExecOutcome.timedOut cexInstance
        (some 900) []).env ≠ []
    ∧ (run_tests_task oneVarLookup ExecOutcome.timedOut cexInstance
        (some 900) []).ret = false :=
  ⟨rfl, by decide, rfl⟩

/-- C4 counterexample: in a run where the trial patch applies but its
revert fails, the driver does not return early — the final prediction
patch and the test patch are still applied and the tests still run,
refuting "if the revert of the trial patch fails, the final prediction
patch and test patch are not applied and tests are not run". -/
theorem driver_continues_after_failed_revert :
    driverMain revertFailEnv
      = [ DriverOp.applyStep (some "P") PatchKind.pred_try false true,
          DriverOp.applyStep (some "P") PatchKind.pred_try true false,
          DriverOp.applyStep (some "P") PatchKind.pred false true,
          DriverOp.applyStep (some "T") PatchKind.test false true,
          DriverOp.runTests true,
          DriverOp.teardown ]
    ∧ countOps isTestApply (driverMain revertFailEnv) = 1
    ∧ countOps isRunTests (driverMain revertFailEnv) = 1 :=
  ⟨rfl, rfl, rfl⟩

/-- C6: for a non-null patch whose temporary-file write into the
environment succeeds (and whose apply and cleanup commands complete),
`apply_patch` returns true iff the apply/revert command exits with code
zero, and the cleanup `rm` of the temporary patch file is issued after
the apply regardless of the apply's exit code. -/
theorem apply_patch_returns_iff_zero_exit (oracle : Cmd → ExecOutcome)
    (instanceId p patchType : String) (revert : Bool)
    (wout aout rout : CmdOutput)
    (hw : oracle (writePatchCmd instanceId p patchType) = ExecOutcome.ok wout)
    (ha : oracle (applyPatchCmd instanceId patchType revert) = ExecOutcome.ok aout)
    (hr : oracle (removePatchCmd instanceId patchType) = ExecOutcome.ok rout) :
    ∃ tr : ApplyTrace,
      apply_patch oracle instanceId (some p) patchType revert = Except.ok tr
      ∧ tr.ret = (aout.returncode == 0)
      ∧ tr.cmds = [ { cmd := writePatchCmd instanceId p patchType
                    , raiseError := true, check := false },
                    { cmd := applyPatchCmd instanceId patchType revert
                    , raiseError := false, check := false },
                    { cmd := removePatchCmd instanceId patchType
                    , raiseError := false, check := false } ] := by
  simp only [apply_patch, hw, ha, hr, execRun, Bool.true_and, Bool.false_and,
    Bool.and_self, if_false, Bool.false_eq_true, ite_false]
  by_cases hz : aout.returncode = 0
  · simp only [hz, bne_self_eq_false, Bool.false_eq_true, ite_false, if_false]
    exact ⟨_, rfl, by simp [hz], rfl⟩
  · have hb : (aout.returncode != 0) = true := by simp [bne, hz]
    simp only [hb, if_true, ite_true]
    refine ⟨_, rfl, ?_, rfl⟩
    simp [hz]

/-- C6 witness: a concrete environment in which every command completes
with exit code zero. -/
theorem apply_patch_returns_iff_zero_exit_witness :
    ∃ tr : ApplyTrace,
      apply_patch (fun _ => ExecOutcome.ok { returncode := 0, stdout := "", stderr := "" })
          "inst-1" (some "diff") "pred" false = Except.ok tr
      ∧ tr.ret = ((0 : Int) == 0)
      ∧ tr.cmds = [ { cmd := writePatchCmd "inst-1" "diff" "pred"
                    , raiseError := true, check := false },
                    { cmd := applyPatchCmd "inst-1" "pred" false
                    , raiseError := false, check := false },
                    { cmd := removePatchCmd "inst-1" "pred"
                    , raiseError := false, check := false } ] :=
  apply_patch_returns_iff_zero_exit
    (fun _ => ExecOutcome.ok { returncode := 0, stdout := "", stderr := "" })
    "inst-1" "diff" "pred" false
    { returncode := 0, stdout := "", stderr := "" }
    { returncode := 0, stdout := "", stderr := "" }
    { returncode := 0, stdout := "", stderr := "" }
    rfl rfl rfl

/-- C2 amended: exactly one `APPLY_PATCH_PASS`/`APPLY_PATCH_FAIL` marker
line is written per completed `apply_patch` call — for any patch text
(including null) and independently of the raise/check flags requested —
except when the temporary patch-file write into the environment fails
(raises): then the call writes no marker and returns false. -/
theorem apply_patch_marker_once_unless_write_fails (oracle : Cmd → ExecOutcome)
    (instanceId : String) (patch : Option String) (patchType : String)
    (revert : Bool) (tr : ApplyTrace)
    (h : apply_patch oracle instanceId patch patchType revert = Except.ok tr) :
    countApplyMarkers tr.log = 1
    ∨ (countApplyMarkers tr.log = 0 ∧ tr.ret = false
       ∧ ∃ p e, patch = some p
           ∧ execRun (oracle (writePatchCmd instanceId p patchType)) true false
               = Except.error e) := by
  cases patch with
  | none =>
      left
      simp only [apply_patch, Except.ok.injEq] at h
      subst h
      simp [countApplyMarkers, isApplyMarker, List.filter]
  | some p =>
      simp only [apply_patch] at h
      cases hw : execRun (oracle (writePatchCmd instanceId p patchType)) true false with
      | error e =>
          right
          rw [hw] at h
          simp only [Except.ok.injEq] at h
          subst h
          exact ⟨rfl, rfl, p, e, rfl, hw⟩
      | ok wout =>
          rw [hw] at h
          cases ha : execRun (oracle (applyPatchCmd instanceId patchType revert))
              false false with
          | error e => rw [ha] at h; exact absurd h (by simp)
          | ok aout =>
              rw [ha] at h
              cases hr : execRun (oracle (removePatchCmd instanceId patchType))
                  false false with
              | error e => rw [hr] at h; exact absurd h (by simp)
              | ok rout =>
                  rw [hr] at h
                  dsimp only at h
                  left
                  by_cases hz : (aout.returncode != 0) = true
                  · rw [if_pos hz] at h
                    simp only [Except.ok.injEq] at h
                    subst h
                    by_cases hs : (aout.stderr != "") = true
                    · simp [hs, countApplyMarkers, isApplyMarker, List.filter]
                    · simp only [Bool.not_eq_true] at hs
                      simp [hs, countApplyMarkers, isApplyMarker, List.filter]
                  · simp only [Bool.not_eq_true] at hz
                    rw [hz] at h
                    simp only [Bool.false_eq_true, if_false, Except.ok.injEq] at h
                    subst h
                    simp [countApplyMarkers, isApplyMarker, List.filter]

/-- C2 amended witness: a null-patch call writes exactly one marker. -/
theorem apply_patch_marker_once_unless_write_fails_witness :
    countApplyMarkers
        [LogEntry.text "Patch is None (pred)",
         LogEntry.applyPatchFail "; Prediction patch is None"] = 1
    ∨ (countApplyMarkers
        [LogEntry.text "Patch is None (pred)",
         LogEntry.applyPatchFail "; Prediction patch is None"] = 0
       ∧ false = false
       ∧ ∃ p e, (none : Option String) = some p
           ∧ execRun ((fun _ => ExecOutcome.timedOut) (writePatchCmd "inst-1" p "pred"))
               true false = Except.error e) :=
  apply_patch_marker_once_unless_write_fails (fun _ => ExecOutcome.timedOut)
    "inst-1" none "pred" false
    { ret := false
    , log := [LogEntry.text "Patch is None (pred)",
              LogEntry.applyPatchFail "; Prediction patch is None"]
    , cmds := [] }
    rfl

/-- C1: for a test run whose install specification exists, a timeout
writes the `TESTS_TIMEOUT` marker (carrying the configured timeout) and
returns false; completion with exit code 0 writes `TESTS_PASSED` and
returns true; completion with a non-zero exit code writes `TESTS_FAILED`
and still returns true — the boolean reflects script completion, not test
success. -/
theorem run_tests_task_classifies
    (lookup : String → Option (String → Option InstallSpec))
    (outcome : ExecOutcome) (inst : TestInstance) (timeout : Option Int)
    (env0 : List (String × String))
    (versions : String → Option InstallSpec) (ispec : InstallSpec)
    (hrepo : lookup inst.repo = some versions)
    (hver : versions inst.version = some ispec) :
    (outcome = ExecOutcome.timedOut →
       (run_tests_task lookup outcome inst timeout env0).ret = false
       ∧ statusMarkers (run_tests_task lookup outcome inst timeout env0).log
           = [LogEntry.testsTimeout timeout])
    ∧ (∀ out : CmdOutput, outcome = ExecOutcome.ok out → out.returncode = 0 →
         (run_tests_task lookup outcome inst timeout env0).ret = true
         ∧ statusMarkers (run_tests_task lookup outcome inst timeout env0).log
             = [LogEntry.testsPassed])
    ∧ (∀ out : CmdOutput, outcome = ExecOutcome.ok out → out.returncode ≠ 0 →
         (run_tests_task lookup outcome inst timeout env0).ret = true
         ∧ statusMarkers (run_tests_task lookup outcome inst timeout env0).log
             = [LogEntry.testsFailed]) := by
  obtain ⟨evt⟩ := ispec
  refine ⟨?_, ?_, ?_⟩
  · rintro rfl
    cases evt <;>
      simp [run_tests_task, hrepo, hver, execRun, statusMarkers, isStatusMarker]
  · rintro out rfl hz
    cases evt <;>
      simp [run_tests_task, hrepo, hver, execRun, statusMarkers, isStatusMarker, hz]
  · rintro out rfl hz
    cases evt <;>
      simp [run_tests_task, hrepo, hver, execRun, statusMarkers, isStatusMarker, hz]

/-- C1 witness: a concrete instance with a spec and a timed-out run. -/
theorem run_tests_task_classifies_witness :
    ((ExecOutcome.timedOut = ExecOutcome.timedOut →
       (run_tests_task oneVarLookup ExecOutcome.timedOut cexInstance
           (some 900) []).ret = false
       ∧ statusMarkers (run_tests_task oneVarLookup ExecOutcome.timedOut cexInstance
           (some 900) []).log = [LogEntry.testsTimeout (some 900)])
    ∧ (∀ out : CmdOutput, ExecOutcome.timedOut = ExecOutcome.ok out →
         out.returncode = 0 →
         (run_tests_task oneVarLookup ExecOutcome.timedOut cexInstance
             (some 900) []).ret = true
         ∧ statusMarkers (run_tests_task oneVarLookup ExecOutcome.timedOut cexInstance
             (some 900) []).log = [LogEntry.testsPassed])
    ∧ (∀ out : CmdOutput, ExecOutcome.timedOut = ExecOutcome.ok out →
         out.returncode ≠ 0 →
         (run_tests_task oneVarLookup ExecOutcome.timedOut cexInstance
             (some 900) []).ret = true
         ∧ statusMarkers (run_tests_task oneVarLookup ExecOutcome.timedOut cexInstance
             (some 900) []).log = [LogEntry.testsFailed])) :=
  run_tests_task_classifies oneVarLookup ExecOutcome.timedOut cexInstance
    (some 900) [] (fun _ => some { env_vars_test := some [("K", "V")] })
    { env_vars_test := some [("K", "V")] } rfl rfl

/-- C10: when the install-specification lookup has no entry for the
instance's repository or version, the failure is caught by the general
error handler: the call returns false, the only status marker written is
`TESTS_ERROR` with the cause, and the test command is never executed. -/
theorem run_tests_task_missing_spec
    (lookup : String → Option (String → Option InstallSpec))
    (outcome : ExecOutcome) (inst : TestInstance) (timeout : Option Int)
    (env0 : List (String × String))
    (h : lookup inst.repo = none
         ∨ ∃ versions, lookup inst.repo = some versions
             ∧ versions inst.version = none) :
    (run_tests_task lookup outcome inst timeout env0).ret = false
    ∧ (∃ cause, statusMarkers
         (run_tests_task lookup outcome inst timeout env0).log
           = [LogEntry.testsError cause])
    ∧ (run_tests_task lookup outcome inst timeout env0).execEnv = none := by
  rcases h with h | ⟨versions, h1, h2⟩
  · refine ⟨?_, ⟨"KeyError: " ++ inst.repo, ?_⟩, ?_⟩ <;>
      simp [run_tests_task, h, statusMarkers, isStatusMarker]
  · refine ⟨?_, ⟨"KeyError: " ++ inst.version, ?_⟩, ?_⟩ <;>
      simp [run_tests_task, h1, h2, statusMarkers, isStatusMarker]

/-- C10 witness: a lookup with no entry for the repository. -/
theorem run_tests_task_missing_spec_witness :
    (run_tests_task (fun _ => none) ExecOutcome.timedOut cexInstance
        (some 900) []).ret = false
    ∧ (∃ cause, statusMarkers
         (run_tests_task (fun _ => none) ExecOutcome.timedOut cexInstance
             (some 900) []).log = [LogEntry.testsError cause])
    ∧ (run_tests_task (fun _ => none) ExecOutcome.timedOut cexInstance
        (some 900) []).execEnv = none :=
  run_tests_task_missing_spec (fun _ => none) ExecOutcome.timedOut cexInstance
    (some 900) [] (Or.inl rfl)

/-- C3 amended: the `env_vars_test` overrides are installed into the
executor's environment-override map before the test command runs, and are
removed after a run that completes (with any exit code); when the run
times out or fails with another error, they are not removed and remain in
the override map. -/
theorem run_tests_env_overrides_scoped
    (lookup : String → Option (String → Option InstallSpec))
    (outcome : ExecOutcome) (inst : TestInstance) (timeout : Option Int)
    (env0 : List (String × String))
    (versions : String → Option InstallSpec) (ispec : InstallSpec)
    (vars : List (String × String))
    (hrepo : lookup inst.repo = some versions)
    (hver : versions inst.version = some ispec)
    (hvars : ispec.env_vars_test = some vars) :
    (run_tests_task lookup outcome inst timeout env0).execEnv
        = some (envUpdate env0 vars)
    ∧ (∀ out : CmdOutput, outcome = ExecOutcome.ok out →
         (run_tests_task lookup outcome inst timeout env0).env
           = envDelete (envUpdate env0 vars) (vars.map Prod.fst))
    ∧ (outcome = ExecOutcome.timedOut →
         (run_tests_task lookup outcome inst timeout env0).env
           = envUpdate env0 vars)
    ∧ (∀ c, outcome = ExecOutcome.err c →
         (run_tests_task lookup outcome inst timeout env0).env
           = envUpdate env0 vars) := by
  refine ⟨?_, ?_, ?_, ?_⟩
  · cases outcome <;> simp [run_tests_task, hrepo, hver, hvars, execRun]
  · rintro out rfl; simp [run_tests_task, hrepo, hver, hvars, execRun]
  · rintro rfl; simp [run_tests_task, hrepo, hver, hvars, execRun]
  · rintro c rfl; simp [run_tests_task, hrepo, hver, hvars, execRun]

/-- C3 amended witness: concrete instance and a timed-out run. -/
theorem run_tests_env_overrides_scoped_witness :
    ((run_tests_task oneVarLookup ExecOutcome.timedOut cexInstance
        (some 900) []).execEnv = some (envUpdate [] [("K", "V")])
    ∧ (∀ out : CmdOutput, ExecOutcome.timedOut = ExecOutcome.ok out →
         (run_tests_task oneVarLookup ExecOutcome.timedOut cexInstance
             (some 900) []).env
           = envDelete (envUpdate [] [("K", "V")]) ([("K", "V")].map Prod.fst))
    ∧ (ExecOutcome.timedOut = ExecOutcome.timedOut →
         (run_tests_task oneVarLookup ExecOutcome.timedOut cexInstance
             (some 900) []).env = envUpdate [] [("K", "V")])
    ∧ (∀ c, ExecOutcome.timedOut = ExecOutcome.err c →
         (run_tests_task oneVarLookup ExecOutcome.timedOut cexInstance
             (some 900) []).env = envUpdate [] [("K", "V")])) :=
  run_tests_env_overrides_scoped oneVarLookup ExecOutcome.timedOut cexInstance
    (some 900) [] (fun _ => some { env_vars_test := some [("K", "V")] })
    { env_vars_test := some [("K", "V")] } [("K", "V")] rfl rfl rfl

/-- `countOps` distributes over trace concatenation. -/
lemma countOps_append (p : DriverOp → Bool) (ops1 ops2 : List DriverOp) :
    countOps p (ops1 ++ ops2) = countOps p ops1 + countOps p ops2 := by
  simp [countOps, List.filter_append]

/-- `countOps` over an empty trace. -/
lemma countOps_nil (p : DriverOp → Bool) : countOps p [] = 0 := rfl

/-- `countOps` over a trace extended in front. -/
lemma countOps_cons (p : DriverOp → Bool) (op : DriverOp)
    (ops : List DriverOp) :
    countOps p (op :: ops) = (if p op then 1 else 0) + countOps p ops := by
  simp only [countOps, List.filter_cons]
  split <;> simp [Nat.add_comm]

/-- Steps 3–5 of the driver perform no minimal-trial attempt and no
teardown of their own. -/
lemma driverTail_no_minimal_no_teardown (e : DriverEnv) (pred : Option String)
    (kind : PatchKind) :
    countOps isMinimalTrial (driverTail e pred kind) = 0
    ∧ countOps isTeardown (driverTail e pred kind) = 0 := by
  cases hk : kind == PatchKind.pred_minimal_try
  · cases h3 : e.applyOk pred PatchKind.pred false <;>
      cases h4 : e.applyOk (some e.test_patch) PatchKind.test false <;>
        simp [driverTail, hk, h3, h4, countOps, isMinimalTrial, isTeardown]
  · cases h3 : e.applyOk pred PatchKind.pred_minimal false <;>
      cases h4 : e.applyOk (some e.test_patch) PatchKind.test false <;>
        simp [driverTail, hk, h3, h4, countOps, isMinimalTrial, isTeardown]

/-- C4 amended: in steps 3–5 of the driver sequence, a failure of the
final re-apply (step 4a) returns early with neither the test patch
applied nor tests run, and a failure of the test-patch apply (step 4b)
returns early with no tests run; the step-3 revert, however, is attempted
with its result discarded, so the final re-apply is performed exactly
once regardless of whether the revert succeeded or failed. -/
theorem driver_tail_abort_policy (e : DriverEnv) (pred : Option String)
    (kind : PatchKind)
    (hkind : kind = PatchKind.pred_try ∨ kind = PatchKind.pred_minimal_try) :
    countOps (isApplyKindNonRevert (if kind == PatchKind.pred_minimal_try then
        PatchKind.pred_minimal else PatchKind.pred)) (driverTail e pred kind) = 1
    ∧ (e.applyOk pred (if kind == PatchKind.pred_minimal_try then
          PatchKind.pred_minimal else PatchKind.pred) false = false →
        countOps isTestApply (driverTail e pred kind) = 0
        ∧ countOps isRunTests (driverTail e pred kind) = 0)
    ∧ (e.applyOk (some e.test_patch) PatchKind.test false = false →
        countOps isRunTests (driverTail e pred kind) = 0) := by
  rcases hkind with rfl | rfl
  · cases h3 : e.applyOk pred PatchKind.pred false <;>
      cases h4 : e.applyOk (some e.test_patch) PatchKind.test false <;>
        simp [driverTail, h3, h4, countOps, isApplyKindNonRevert,
          isTestApply, isRunTests]
  · cases h3 : e.applyOk pred PatchKind.pred_minimal false <;>
      cases h4 : e.applyOk (some e.test_patch) PatchKind.test false <;>
        simp [driverTail, h3, h4, countOps, isApplyKindNonRevert,
          isTestApply, isRunTests]

/-- C4 amended witness: concrete tail where the revert fails and the
subsequent applies succeed. -/
theorem driver_tail_abort_policy_witness :
    countOps (isApplyKindNonRevert (if PatchKind.pred_try ==
        PatchKind.pred_minimal_try then PatchKind.pred_minimal
        else PatchKind.pred))
      (driverTail revertFailEnv (some "P") PatchKind.pred_try) = 1
    ∧ (revertFailEnv.applyOk (some "P") (if PatchKind.pred_try ==
          PatchKind.pred_minimal_try then PatchKind.pred_minimal
          else PatchKind.pred) false = false →
        countOps isTestApply
          (driverTail revertFailEnv (some "P") PatchKind.pred_try) = 0
        ∧ countOps isRunTests
          (driverTail revertFailEnv (some "P") PatchKind.pred_try) = 0)
    ∧ (revertFailEnv.applyOk (some revertFailEnv.test_patch)
          PatchKind.test false = false →
        countOps isRunTests
          (driverTail revertFailEnv (some "P") PatchKind.pred_try) = 0) :=
  driver_tail_abort_policy revertFailEnv (some "P") PatchKind.pred_try
    (Or.inl rfl)

/-- C7: the minimal-patch fallback is attempted exactly once when the
first trial application fails and the prediction is non-null and
non-empty, and never otherwise; when the minimal trial also fails the
sequence ends immediately — no test patch is applied and no tests run —
and scope-exit teardown still happens exactly once. -/
theorem driver_minimal_fallback (e : DriverEnv) :
    countOps isMinimalTrial (driverMain e)
      = (if fallbackGuard e then 1 else 0)
    ∧ (fallbackGuard e = true →
        e.applyOk (minimalPred e) PatchKind.pred_minimal_try false = false →
        driverMain e
          = [DriverOp.applyStep e.pred PatchKind.pred_try false false,
             DriverOp.applyStep (minimalPred e) PatchKind.pred_minimal_try
               false false,
             DriverOp.teardown]
        ∧ countOps isTestApply (driverMain e) = 0
        ∧ countOps isRunTests (driverMain e) = 0)
    ∧ countOps isTeardown (driverMain e) = 1 := by
  obtain ⟨hmt, htt⟩ := driverTail_no_minimal_no_teardown e e.pred
    PatchKind.pred_try
  obtain ⟨hmm, htm⟩ := driverTail_no_minimal_no_teardown e (minimalPred e)
    PatchKind.pred_minimal_try
  refine ⟨?_, ?_, ?_⟩
  · by_cases hg : fallbackGuard e
    · cases h2 : e.applyOk (minimalPred e) PatchKind.pred_minimal_try false <;>
        simp [driverMain, driverBody, hg, h2, countOps_append, countOps_cons,
          countOps_nil, hmm, isMinimalTrial]
    · simp only [Bool.not_eq_true] at hg
      simp [driverMain, driverBody, hg, countOps_append, countOps_cons,
        countOps_nil, hmt, isMinimalTrial]
  · intro hg h2
    have h1 : firstTrialOk e = false := by
      have hgg := hg
      simp only [fallbackGuard, Bool.and_eq_true, Bool.not_eq_true'] at hgg
      exact hgg.1.1
    refine ⟨?_, ?_, ?_⟩ <;>
      simp [driverMain, driverBody, hg, h2, h1, countOps_append, countOps_cons,
        countOps_nil, isTestApply, isRunTests]
  · by_cases hg : fallbackGuard e
    · cases h2 : e.applyOk (minimalPred e) PatchKind.pred_minimal_try false <;>
        simp [driverMain, driverBody, hg, h2, countOps_append, countOps_cons,
          countOps_nil, htm, isTeardown]
    · simp only [Bool.not_eq_true] at hg
      simp [driverMain, driverBody, hg, countOps_append, countOps_cons,
        countOps_nil, htt, isTeardown]

/-- A driver environment where every patch application fails. -/
def allApplyFailEnv : DriverEnv :=
  { pred := some "P"
  , test_patch := "T"
  , applyOk := fun _ _ _ => false
  , testsOk := true
  , minimal := fun s => s }

/-- C7 witness: concrete run where both trials fail. -/
theorem driver_minimal_fallback_witness :
    countOps isMinimalTrial (driverMain allApplyFailEnv) = 1
    ∧ countOps isTestApply (driverMain allApplyFailEnv) = 0
    ∧ countOps isRunTests (driverMain allApplyFailEnv) = 0
    ∧ countOps isTeardown (driverMain allApplyFailEnv) = 1 := by
  have h := driver_minimal_fallback allApplyFailEnv
  have hg : fallbackGuard allApplyFailEnv = true := by decide
  obtain ⟨htest, hrun⟩ := (h.2.1 hg rfl).2
  refine ⟨?_, htest, hrun, h.2.2⟩
  rw [h.1, hg]
  rfl
